import Mathlib

set_option maxRecDepth 1000000

/-!
Shallow embedding, in Lean 4, of the BAS (blockchain-mirrored OAuth2)
authorization server: the `server` package of the repository (request
validation, redirect construction, token issuance, bearer validation and
the hash-derived ledger identifiers).  Pure Go helpers (`sha256.Sum256`,
`base64.StdEncoding.EncodeToString`) are embedded as executable Lean
functions over `Nat`-valued bytes; the HTTP request, the configuration
and the pluggable handlers are explicit values; the external ledger
(`bcconnector`) is an explicit read map.
-/

/-! ## Bytes and UTF-8 -/

/-- UTF-8 encoding of one character, as `Nat`-valued bytes
(mirrors Go's byte view of a string). -/
def utf8Bytes (c : Char) : List Nat :=
  let n := c.toNat
  if n < 128 then [n]
  else if n < 2048 then
    [192 ||| (n >>> 6), 128 ||| (n &&& 63)]
  else if n < 65536 then
    [224 ||| (n >>> 12), 128 ||| ((n >>> 6) &&& 63), 128 ||| (n &&& 63)]
  else
    [240 ||| (n >>> 18), 128 ||| ((n >>> 12) &&& 63),
     128 ||| ((n >>> 6) &&& 63), 128 ||| (n &&& 63)]

/-- The bytes of a Go string (`[]byte(s)`): UTF-8 encoding. -/
def strBytes (s : String) : List Nat :=
  (s.data.map utf8Bytes).flatten

/-- Go's `len` on a string: its byte length. -/
def goLen (s : String) : Nat :=
  (strBytes s).length

/-- Character-list prefix test. -/
def listPfx : List Char → List Char → Bool
  | [], _ => true
  | _ :: _, [] => false
  | p :: ps, c :: cs => p == c && listPfx ps cs

/-- Embedding of Go's `strings.HasPrefix`. -/
def goStartsWith (s pre : String) : Bool := listPfx pre.data s.data

/-- Embedding of Go's string slicing `s[n:]`: here the slice offset is
the byte length of an ASCII prefix, so byte slicing coincides with
dropping that many characters. -/
def goDrop (s : String) (n : Nat) : String := String.mk (s.data.drop n)

/-! ## SHA-256 over Nat (crypto/sha256.Sum256) -/

/-- Addition modulo 2^32. -/
def add32 (a b : Nat) : Nat := (a + b) % 4294967296

/-- Right rotation of a 32-bit word (input assumed < 2^32). -/
def rotr32 (n x : Nat) : Nat :=
  (x >>> n) ||| ((x % (1 <<< n)) <<< (32 - n))

/-- SHA-256 big sigma 0. -/
def bsig0 (x : Nat) : Nat := rotr32 2 x ^^^ rotr32 13 x ^^^ rotr32 22 x

/-- SHA-256 big sigma 1. -/
def bsig1 (x : Nat) : Nat := rotr32 6 x ^^^ rotr32 11 x ^^^ rotr32 25 x

/-- SHA-256 small sigma 0. -/
def ssig0 (x : Nat) : Nat := rotr32 7 x ^^^ rotr32 18 x ^^^ (x >>> 3)

/-- SHA-256 small sigma 1. -/
def ssig1 (x : Nat) : Nat := rotr32 17 x ^^^ rotr32 19 x ^^^ (x >>> 10)

/-- SHA-256 choice function. -/
def chF (x y z : Nat) : Nat := (x &&& y) ^^^ ((x ^^^ 4294967295) &&& z)

/-- SHA-256 majority function. -/
def majF (x y z : Nat) : Nat := (x &&& y) ^^^ (x &&& z) ^^^ (y &&& z)

/-- The 64 SHA-256 round constants (decimal). -/
def kConst : List Nat :=
  [1116352408, 1899447441, 3049323471, 3921009573,
   961987163, 1508970993, 2453635748, 2870763221,
   3624381080, 310598401, 607225278, 1426881987,
   1925078388, 2162078206, 2614888103, 3248222580,
   3835390401, 4022224774, 264347078, 604807628,
   770255983, 1249150122, 1555081692, 1996064986,
   2554220882, 2821834349, 2952996808, 3210313671,
   3336571891, 3584528711, 113926993, 338241895,
   666307205, 773529912, 1294757372, 1396182291,
   1695183700, 1986661051, 2177026350, 2456956037,
   2730485921, 2820302411, 3259730800, 3345764771,
   3516065817, 3600352804, 4094571909, 275423344,
   430227734, 506948616, 659060556, 883997877,
   958139571, 1322822218, 1537002063, 1747873779,
   1955562222, 2024104815, 2227730452, 2361852424,
   2428436474, 2756734187, 3204031479, 3329325298]

/-- The SHA-256 initial hash value (decimal). -/
def hInit : Nat × Nat × Nat × Nat × Nat × Nat × Nat × Nat :=
  (1779033703, 3144134277, 1013904242, 2773480762,
   1359893119, 2600822924, 528734635, 1541459225)

/-- Big-endian 8-byte encoding of a 64-bit length value. -/
def be64 (n : Nat) : List Nat :=
  [(n >>> 56) % 256, (n >>> 48) % 256, (n >>> 40) % 256, (n >>> 32) % 256,
   (n >>> 24) % 256, (n >>> 16) % 256, (n >>> 8) % 256, n % 256]

/-- SHA-256 message padding: append 0x80, zeros to 56 mod 64, then the
bit length as 8 big-endian bytes. -/
def padMsg (m : List Nat) : List Nat :=
  let l := m.length
  let zeros := (119 - l % 64) % 64
  m ++ [128] ++ List.replicate zeros 0 ++ be64 (8 * l)

/-- Group bytes into big-endian 32-bit words, four bytes at a time. -/
def bytesToWords : List Nat → List Nat
  | a :: b :: c :: d :: rest =>
      (a <<< 24 ||| b <<< 16 ||| c <<< 8 ||| d) :: bytesToWords rest
  | _ => []

/-- SHA-256 message schedule: extend 16 words to 64. -/
def schedule (ws : List Nat) : Array Nat :=
  (List.range 48).foldl
    (fun w _ =>
      let t := w.size
      w.push (add32
        (add32 (ssig1 (w.getD (t - 2) 0)) (w.getD (t - 7) 0))
        (add32 (ssig0 (w.getD (t - 15) 0)) (w.getD (t - 16) 0))))
    ws.toArray

/-- One SHA-256 compression step over a 64-byte block (given as 16 words). -/
def compressBlock (h : Nat × Nat × Nat × Nat × Nat × Nat × Nat × Nat)
    (ws : List Nat) : Nat × Nat × Nat × Nat × Nat × Nat × Nat × Nat :=
  let w := schedule ws
  let (a0, b0, c0, d0, e0, f0, g0, h0) := h
  let st := (List.range 64).foldl
    (fun st t =>
      let (a, b, c, d, e, f, g, hh) := st
      let t1 := add32 hh (add32 (bsig1 e)
        (add32 (chF e f g) (add32 (kConst.getD t 0) (w.getD t 0))))
      let t2 := add32 (bsig0 a) (majF a b c)
      (add32 t1 t2, a, b, c, add32 d t1, e, f, g)) h
  let (a, b, c, d, e, f, g, hh) := st
  (add32 a0 a, add32 b0 b, add32 c0 c, add32 d0 d,
   add32 e0 e, add32 f0 f, add32 g0 g, add32 h0 hh)

/-- Big-endian 4-byte encoding of a 32-bit word. -/
def w2b (x : Nat) : List Nat :=
  [(x >>> 24) % 256, (x >>> 16) % 256, (x >>> 8) % 256, x % 256]

/-- Fold the SHA-256 compression over a word stream, 16 words (one
64-byte block) at a time. -/
def sha256Fold (st : Nat × Nat × Nat × Nat × Nat × Nat × Nat × Nat) :
    List Nat → Nat × Nat × Nat × Nat × Nat × Nat × Nat × Nat
  | w0 :: w1 :: w2 :: w3 :: w4 :: w5 :: w6 :: w7 ::
    w8 :: w9 :: w10 :: w11 :: w12 :: w13 :: w14 :: w15 :: rest =>
      sha256Fold (compressBlock st
        [w0, w1, w2, w3, w4, w5, w6, w7,
         w8, w9, w10, w11, w12, w13, w14, w15]) rest
  | _ => st

/-- SHA-256 digest of a byte message: 32 `Nat`-valued bytes
(embedding of Go's `sha256.Sum256`). -/
def sha256Bytes (m : List Nat) : List Nat :=
  let final := sha256Fold hInit (bytesToWords (padMsg m))
  let (a, b, c, d, e, f, g, hh) := final
  w2b a ++ w2b b ++ w2b c ++ w2b d ++ w2b e ++ w2b f ++ w2b g ++ w2b hh

/-! ## Standard base64 (encoding/base64.StdEncoding) -/

/-- The standard base64 alphabet. -/
def b64Tbl : List Char :=
  "ABCDEFGHIJKLMNOPQRSTUVWXYZabcdefghijklmnopqrstuvwxyz0123456789+/".data

/-- One base64 alphabet character. -/
def b64Char (n : Nat) : Char := b64Tbl.getD n 'A'

/-- Base64 character stream of a byte list, with `=` padding. -/
def b64Chars : List Nat → List Char
  | [] => []
  | [a] =>
      let n := a <<< 16
      [b64Char (n >>> 18), b64Char ((n >>> 12) &&& 63), '=', '=']
  | [a, b] =>
      let n := a <<< 16 ||| b <<< 8
      [b64Char (n >>> 18), b64Char ((n >>> 12) &&& 63),
       b64Char ((n >>> 6) &&& 63), '=']
  | a :: b :: c :: rest =>
      let n := a <<< 16 ||| b <<< 8 ||| c
      b64Char (n >>> 18) :: b64Char ((n >>> 12) &&& 63) ::
        b64Char ((n >>> 6) &&& 63) :: b64Char (n &&& 63) :: b64Chars rest

/-- Standard base64 encoding of a byte list
(embedding of Go's `base64.StdEncoding.EncodeToString`). -/
def base64Std (l : List Nat) : String := String.mk (b64Chars l)

/-- Embedding of `genHashS256` (server.go): base64 of the SHA-256 of the
string's bytes. -/
def genHashS256 (s : String) : String :=
  base64Std (sha256Bytes (strBytes s))

/-- Decidable equality of `Except` results, so that concrete runs of
the embedded handlers can be checked by evaluation. -/
instance {ε α : Type} [DecidableEq ε] [DecidableEq α] :
    DecidableEq (Except ε α) := fun a b =>
  match a, b with
  | .error e₁, .error e₂ =>
      if h : e₁ = e₂ then .isTrue (congrArg Except.error h)
      else .isFalse (fun hc => h (Except.error.inj hc))
  | .ok a₁, .ok a₂ =>
      if h : a₁ = a₂ then .isTrue (congrArg Except.ok h)
      else .isFalse (fun hc => h (Except.ok.inj hc))
  | .error _, .ok _ => .isFalse (fun hc => Except.noConfusion hc)
  | .ok _, .error _ => .isFalse (fun hc => Except.noConfusion hc)

/-! ## OAuth2 error values (bserver/oauth2/errors) -/

/-- The error values of the `bserver/oauth2/errors` package that the
server code under study returns or inspects. -/
inductive Err where
  | invalidRequest
  | unauthorizedClient
  | accessDenied
  | unsupportedResponseType
  | unsupportedGrantType
  | invalidScope
  | invalidGrant
  | invalidClient
  | invalidAccessToken
  | serverError
  | codeChallengeRquired
  | invalidCodeChallengeLen
  | unsupportedCodeChallengeMethod
  | invalidAuthorizeCode
  | invalidCodeChallenge
  | missingCodeChallenge
  | invalidRefreshToken
  | expiredRefreshToken
deriving DecidableEq, Repr

/-- Modelled from the spec: the `errors.StatusCodes` table is not under
src/; HTTP statuses follow the spec's error taxonomy (invalid_request
400, unauthorized_client 401, access_denied 403, unsupported types 400,
invalid_scope 400, invalid_grant 400, invalid_client 401,
invalid_access_token 400 per the protected-resource probe, server_error
500); error values the table does not list are given 400. -/
def statusOf : Err → Nat
  | .invalidRequest => 400
  | .unauthorizedClient => 401
  | .accessDenied => 403
  | .unsupportedResponseType => 400
  | .unsupportedGrantType => 400
  | .invalidScope => 400
  | .invalidGrant => 400
  | .invalidClient => 401
  | .invalidAccessToken => 400
  | .serverError => 500
  | _ => 400

/-! ## url.Values (association list of query parameters) -/

/-- Go's `url.Values`, abstracted as an association list of keys and
values; serialization by `url.Values.Encode` (sorted, percent-escaped)
is abstracted to the parameter list itself. -/
abbrev Values := List (String × String)

/-- Lookup of a query parameter (`url.Values.Get`): the first value
stored under the key. -/
def Values.get : Values → String → Option String
  | [], _ => none
  | p :: rest, k => if p.1 = k then some p.2 else Values.get rest k

/-- Removal of every entry under a key. -/
def Values.del : Values → String → Values
  | [], _ => []
  | p :: rest, k =>
      if p.1 = k then Values.del rest k else p :: Values.del rest k

/-- Replacement of a query parameter (`url.Values.Set`): the map entry
for `k` becomes the single value `v`. -/
def Values.set (vs : Values) (k v : String) : Values :=
  (k, v) :: Values.del vs k

/-! ## Ledger records (bserver/oauth2/server/bcconector) -/

namespace bcconnector

/-- The `bcconnector.CodeInfo` ledger record (all fields are strings in
the Go struct; zero value is the all-empty record). -/
structure CodeInfo where
  InfoType : String := ""
  ID_code : String := ""
  DID_RO : String := ""
  DID_client : String := ""
  Scope : String := ""
  Hash_code : String := ""
  Time_issueed : String := ""
  URI_Redirection : String := ""
  Condition : String := ""
  ID_token : String := ""
deriving DecidableEq, Repr

/-- The `bcconnector.TokenInfo` ledger record. -/
structure TokenInfo where
  InfoType : String := ""
  ID_token : String := ""
  DID_RO : String := ""
  DID_client : String := ""
  Scope : String := ""
  Hash_token : String := ""
  Time_issueed : String := ""
  Time_expiration : String := ""
  URI_Redirection : String := ""
  Condition : String := ""
deriving DecidableEq, Repr

end bcconnector

/-- The state of the external ledger visible to synchronous reads: a
record, keyed by derived identifier, or nothing. -/
structure Ledger where
  codes : String → Option bcconnector.CodeInfo
  tokens : String → Option bcconnector.TokenInfo

/-- Modelled from the spec: `bcconnector.ReadCodeInfo` is not under
src/; per the spec's ledger boundary, `ReadCodeRecord(id)` yields the
record or `not_found`, an unreachable ledger is treated as not found,
and the src/ caller receives a plain `CodeInfo` value, so `not_found`
is the empty/default record (the case the spec says an acceptance check
must defend against). -/
def readCodeInfo (L : Ledger) (id : String) : bcconnector.CodeInfo :=
  (L.codes id).getD {}

/-- Modelled from the spec: `bcconnector.ReadTokenInfo` is not under
src/; as for `readCodeInfo`, a miss or an unreachable ledger yields the
empty/default record. -/
def readTokenInfo (L : Ledger) (id : String) : bcconnector.TokenInfo :=
  (L.tokens id).getD {}

/-! ## Requests, configuration, server -/

/-- The inbound HTTP request as the server code reads it: the method,
the `Authorization` header, and the merged form/query values
(`r.FormValue`, empty string when absent). -/
structure HttpRequest where
  method : String := ""
  authorization : String := ""
  form : String → String := fun _ => ""

/-- Go's `r.FormValue`. -/
def HttpRequest.formValue (r : HttpRequest) (k : String) : String :=
  r.form k

/-- The oauth2 `TokenInfo` issued by the in-memory manager (GrantStore):
the getters the server code uses.  `accessCreateAt` holds the rendered
creation instant (`GetAccessCreateAt().String()`); `accessExpiresInSec`
the lifetime in seconds (`GetAccessExpiresIn() / time.Second`). -/
structure OAuthTokenInfo where
  access : String := ""
  refresh : String := ""
  scope : String := ""
  accessCreateAt : String := ""
  accessExpiresInSec : Int := 0
deriving DecidableEq, Repr

/-- The oauth2 `TokenGenerateRequest` struct (string fields; zero value
is all-empty). -/
structure TokenGenerateRequest where
  clientID : String := ""
  clientSecret : String := ""
  redirectURI : String := ""
  code : String := ""
  codeVerifier : String := ""
  scope : String := ""
  userID : String := ""
  refresh : String := ""
deriving DecidableEq, Repr

/-- Oracle for the in-memory `oauth2.Manager` (GrantStore), which is not
under src/: the three manager calls the token path makes.  The default
oracle refuses everything. -/
structure Manager where
  generateAccessToken : String → TokenGenerateRequest → Except Err OAuthTokenInfo :=
    fun _ _ => Except.error Err.serverError
  loadRefreshToken : String → Except Err OAuthTokenInfo :=
    fun _ => Except.error Err.invalidRefreshToken
  refreshAccessToken : TokenGenerateRequest → Except Err OAuthTokenInfo :=
    fun _ => Except.error Err.serverError

/-- The server `Config` fields the code under study reads.  Defaults
follow the spec: allow-lists `code`/`token` and the four grant types,
token type `Bearer`, PKCE not forced, GET token requests refused. -/
structure Config where
  allowedResponseTypes : List String := ["code", "token"]
  allowedCodeChallengeMethods : List String := ["plain", "S256"]
  forcePKCE : Bool := false
  allowGetAccessRequest : Bool := false
  allowedGrantTypes : List String :=
    ["authorization_code", "password", "client_credentials", "refresh_token"]
  tokenType : String := "Bearer"

/-- The `Server` with its configuration, its pluggable handlers and its
manager oracle.  Handlers that `NewServer` leaves nil are `Option`s
defaulting to `none`; the defaults of `clientInfoHandler` (Go default
`ClientBasicHandler`, not under src/) and of
`passwordAuthorizationHandler` (Go default: access denied) are neutral
refusals. -/
structure Server where
  config : Config := {}
  clientInfoHandler : HttpRequest → Except Err (String × String) :=
    fun _ => Except.error Err.invalidClient
  passwordAuthorizationHandler : String → String → Except Err String :=
    fun _ _ => Except.error Err.accessDenied
  clientAuthorizedHandler : Option (String → String → Except Err Bool) := none
  clientScopeHandler : Option (TokenGenerateRequest → Except Err Bool) := none
  refreshingScopeHandler : Option (TokenGenerateRequest → String → Except Err Bool) := none
  refreshingValidationHandler : Option (OAuthTokenInfo → Except Err Bool) := none
  extensionFieldsHandler : Option (OAuthTokenInfo → Values) := none
  manager : Manager := {}

/-- The `oauth2.Code` response type constant. -/
def oauthCode : String := "code"

/-- The `oauth2.Token` response type constant. -/
def oauthToken : String := "token"

/-- The `oauth2.AuthorizationCode` grant type constant. -/
def grantAuthorizationCode : String := "authorization_code"

/-- The `oauth2.PasswordCredentials` grant type constant. -/
def grantPasswordCredentials : String := "password"

/-- The `oauth2.ClientCredentials` grant type constant. -/
def grantClientCredentials : String := "client_credentials"

/-- The `oauth2.Refreshing` grant type constant. -/
def grantRefreshing : String := "refresh_token"

/-- Embedding of `Server.CheckResponseType`: membership in the
configured allow-list. -/
def checkResponseType (s : Server) (rt : String) : Bool :=
  s.config.allowedResponseTypes.contains rt

/-- Embedding of `Server.CheckCodeChallengeMethod`. -/
def checkCodeChallengeMethod (s : Server) (ccm : String) : Bool :=
  s.config.allowedCodeChallengeMethods.contains ccm

/-- Embedding of `Server.CheckGrantType`. -/
def checkGrantType (s : Server) (gt : String) : Bool :=
  s.config.allowedGrantTypes.contains gt

/-- The `AuthorizeRequest` built by a successful validation. -/
structure AuthorizeRequest where
  redirectURI : String := ""
  responseType : String := ""
  clientID : String := ""
  state : String := ""
  scope : String := ""
  userID : String := ""
  codeChallenge : String := ""
  codeChallengeMethod : String := ""
deriving DecidableEq, Repr

/-- Embedding of `Server.ValidationAuthorizeRequest`: the guard chain of
the authorize endpoint, in source order (method and client_id, response
type presence then allow-list, PKCE requiredness then challenge length,
challenge method defaulting then allow-list). -/
def validationAuthorizeRequest (s : Server) (r : HttpRequest) :
    Except Err AuthorizeRequest :=
  let redirectURI := r.formValue "redirect_uri"
  let clientID := r.formValue "client_id"
  if ¬ (r.method = "GET" ∨ r.method = "POST") ∨ clientID = "" then
    .error .invalidRequest
  else
    let resType := r.formValue "response_type"
    if resType = "" then .error .unsupportedResponseType
    else if checkResponseType s resType = false then .error .unauthorizedClient
    else
      let cc := r.formValue "code_challenge"
      if cc = "" ∧ s.config.forcePKCE = true then .error .codeChallengeRquired
      else if cc ≠ "" ∧ (goLen cc < 43 ∨ goLen cc > 128) then
        .error .invalidCodeChallengeLen
      else
        let ccm0 := r.formValue "code_challenge_method"
        let ccm := if ccm0 = "" then "plain" else ccm0
        if ccm ≠ "" ∧ checkCodeChallengeMethod s ccm = false then
          .error .unsupportedCodeChallengeMethod
        else
          .ok { redirectURI := redirectURI, responseType := resType,
                clientID := clientID, state := r.formValue "state",
                scope := r.formValue "scope", codeChallenge := cc,
                codeChallengeMethod := ccm }

/-- A parsed redirect URI, at the granularity the redirect construction
manipulates: its query parameters and its fragment parameters (the
`RawQuery`/`Fragment` strings produced by `url.Values.Encode` and
`url.QueryUnescape` are abstracted to the parameter lists they
serialize; an empty list is the empty string). -/
structure GoURL where
  query : Values := []
  fragment : Values := []
deriving DecidableEq, Repr

/-- Embedding of `Server.GetRedirectURI` on a parseable redirect URI
`u`: echo `state` when non-empty, overlay the response data, then place
the parameters in the query (response type `code`) or in the fragment
with the query cleared (response type `token`). -/
def getRedirectURI (req : AuthorizeRequest) (u : GoURL) (data : Values) : GoURL :=
  let q := u.query
  let q := if req.state ≠ "" then Values.set q "state" req.state else q
  let q := data.foldl (fun acc p => Values.set acc p.1 p.2) q
  if req.responseType = oauthCode then { u with query := q }
  else if req.responseType = oauthToken then { query := [], fragment := q }
  else u

/-- Embedding of the CodeRecord construction in
`Server.HandleAuthorizeRequest`: ledger identifier `CI_` plus the code
hash, owner and client DIDs, scope and redirect URI from the request,
status `Available`, empty linked token; `now` stands for
`time.Now().String()`. -/
def mkCodeInfo (req : AuthorizeRequest) (mCode : String) (now : String) :
    bcconnector.CodeInfo :=
  let mHashV := genHashS256 mCode
  let mID := "CI_" ++ mHashV
  { InfoType := "CodeInfo", ID_code := mID, DID_RO := req.userID,
    DID_client := req.clientID, Scope := req.scope, Hash_code := mHashV,
    Time_issueed := now, URI_Redirection := req.redirectURI,
    Condition := "Available", ID_token := "" }

/-- Embedding of `Server.ValidationTokenRequest`: method gate, grant
type presence, client credentials via the client-info handler, then the
per-grant parameter checks, in source order.  A grant type that matches
no switch case passes through unchanged, as in the Go switch. -/
def validationTokenRequest (s : Server) (r : HttpRequest) :
    Except Err (String × TokenGenerateRequest) :=
  if ¬ (r.method = "POST" ∨ (s.config.allowGetAccessRequest = true ∧ r.method = "GET")) then
    .error .invalidRequest
  else
    let gt := r.formValue "grant_type"
    if gt = "" then .error .unsupportedGrantType
    else
      match s.clientInfoHandler r with
      | .error e => .error e
      | .ok (clientID, clientSecret) =>
        let tgr : TokenGenerateRequest :=
          { clientID := clientID, clientSecret := clientSecret }
        if gt = grantAuthorizationCode then
          let tgr := { tgr with redirectURI := r.formValue "redirect_uri",
                                code := r.formValue "code" }
          if tgr.redirectURI = "" ∨ tgr.code = "" then .error .invalidRequest
          else
            let tgr := { tgr with codeVerifier := r.formValue "code_verifier" }
            if s.config.forcePKCE = true ∧ tgr.codeVerifier = "" then
              .error .invalidRequest
            else .ok (gt, tgr)
        else if gt = grantPasswordCredentials then
          let tgr := { tgr with scope := r.formValue "scope" }
          let username := r.formValue "username"
          let password := r.formValue "password"
          if username = "" ∨ password = "" then .error .invalidRequest
          else
            match s.passwordAuthorizationHandler username password with
            | .error e => .error e
            | .ok userID =>
              if userID = "" then .error .invalidGrant
              else .ok (gt, { tgr with userID := userID })
        else if gt = grantClientCredentials then
          .ok (gt, { tgr with scope := r.formValue "scope" })
        else if gt = grantRefreshing then
          let tgr := { tgr with refresh := r.formValue "refresh_token",
                                scope := r.formValue "scope" }
          if tgr.refresh = "" then .error .invalidRequest
          else .ok (gt, tgr)
        else .ok (gt, tgr)

/-- Embedding of the scope-narrowing guard of the refresh branch of
`Server.GetAccessToken`. -/
def refreshScopeCheck (s : Server) (tgr : TokenGenerateRequest) : Except Err Unit :=
  match s.refreshingScopeHandler with
  | none => .ok ()
  | some scopeFn =>
    if tgr.scope = "" then .ok ()
    else
      match s.manager.loadRefreshToken tgr.refresh with
      | .error e =>
        if e = .invalidRefreshToken ∨ e = .expiredRefreshToken then
          .error .invalidGrant
        else .error e
      | .ok rti =>
        match scopeFn tgr rti.scope with
        | .error e => .error e
        | .ok allowed => if allowed = false then .error .invalidScope else .ok ()

/-- Embedding of the refresh-validation guard of the refresh branch of
`Server.GetAccessToken`. -/
def refreshValidationCheck (s : Server) (tgr : TokenGenerateRequest) : Except Err Unit :=
  match s.refreshingValidationHandler with
  | none => .ok ()
  | some validationFn =>
    match s.manager.loadRefreshToken tgr.refresh with
    | .error e =>
      if e = .invalidRefreshToken ∨ e = .expiredRefreshToken then
        .error .invalidGrant
      else .error e
    | .ok rti =>
      match validationFn rti with
      | .error e => .error e
      | .ok allowed => if allowed = false then .error .invalidScope else .ok ()

/-- The grant-type dispatch of `Server.GetAccessToken`, after the
allow-list and client-authorization gates. -/
def getAccessTokenCore (s : Server) (gt : String) (tgr : TokenGenerateRequest) :
    Except Err OAuthTokenInfo :=
  if gt = grantAuthorizationCode then
    match s.manager.generateAccessToken gt tgr with
    | .error e =>
      if e = .invalidAuthorizeCode ∨ e = .invalidCodeChallenge ∨
          e = .missingCodeChallenge then .error .invalidGrant
      else if e = .invalidClient then .error .invalidClient
      else .error e
    | .ok ti => .ok ti
  else if gt = grantPasswordCredentials ∨ gt = grantClientCredentials then
    match s.clientScopeHandler with
    | none => s.manager.generateAccessToken gt tgr
    | some fn =>
      match fn tgr with
      | .error e => .error e
      | .ok allowed =>
        if allowed = false then .error .invalidScope
        else s.manager.generateAccessToken gt tgr
  else if gt = grantRefreshing then
    match refreshScopeCheck s tgr with
    | .error e => .error e
    | .ok _ =>
      match refreshValidationCheck s tgr with
      | .error e => .error e
      | .ok _ =>
        match s.manager.refreshAccessToken tgr with
        | .error e =>
          if e = .invalidRefreshToken ∨ e = .expiredRefreshToken then
            .error .invalidGrant
          else .error e
        | .ok ti => .ok ti
  else .error .unsupportedGrantType

/-- Embedding of `Server.GetAccessToken`: grant-type allow-list, the
optional client-authorized hook, then the per-grant dispatch. -/
def getAccessToken (s : Server) (gt : String) (tgr : TokenGenerateRequest) :
    Except Err OAuthTokenInfo :=
  if checkGrantType s gt = false then .error .unauthorizedClient
  else
    match s.clientAuthorizedHandler with
    | none => getAccessTokenCore s gt tgr
    | some fn =>
      match fn tgr.clientID gt with
      | .error e => .error e
      | .ok allowed =>
        if allowed = false then .error .unauthorizedClient
        else getAccessTokenCore s gt tgr

/-- Embedding of `Server.GetTokenData`: the JSON response body of a
successful token request, as parameters (number values rendered as
their decimal strings). -/
def getTokenData (s : Server) (ti : OAuthTokenInfo) : Values :=
  let data : Values :=
    [("access_token", ti.access), ("token_type", s.config.tokenType),
     ("expires_in", toString ti.accessExpiresInSec)]
  let data := if ti.scope ≠ "" then Values.set data "scope" ti.scope else data
  let data := if ti.refresh ≠ "" then Values.set data "refresh_token" ti.refresh else data
  match s.extensionFieldsHandler with
  | none => data
  | some fn =>
    (fn ti).foldl
      (fun d p => if (d.get p.1).isSome then d else d ++ [p]) data

/-- The HTTP outcome of a token request: a JSON success body, or an
error mapped through `tokenError`/`GetErrorData`. -/
inductive TokenResponse where
  | success (data : Values)
  | failure (e : Err)
deriving DecidableEq, Repr

/-- Embedding of the post-issuance block of `Server.HandleTokenRequest`
(the code between token issuance and the response): recompute the
presented code's hash, derive `CI_` identifier, synchronously read the
CodeRecord, build the TokenRecord (owner and client DIDs and scope from
whatever record the read returned, hash and `TI_` identifier from the
new access token, both timestamps from the access-token creation
instant, status `Available`), and produce the JSON token response.
Returns the response and the TokenRecord submitted asynchronously. -/
def postIssueToken (s : Server) (L : Ledger) (tgr : TokenGenerateRequest)
    (ti : OAuthTokenInfo) : TokenResponse × bcconnector.TokenInfo :=
  let mCHashV := genHashS256 tgr.code
  let mCID := "CI_" ++ mCHashV
  let mCodeInfo := readCodeInfo L mCID
  let mToken := ti.access
  let mTHashV := genHashS256 mToken
  let mTID := "TI_" ++ mTHashV
  let mTokenInfo : bcconnector.TokenInfo :=
    { InfoType := "TokenInfo", ID_token := mTID,
      DID_RO := mCodeInfo.DID_RO, DID_client := mCodeInfo.DID_client,
      Scope := mCodeInfo.Scope, Hash_token := mTHashV,
      Time_issueed := ti.accessCreateAt,
      Time_expiration := ti.accessCreateAt,
      URI_Redirection := tgr.redirectURI, Condition := "Available" }
  (.success (getTokenData s ti), mTokenInfo)

/-- The observable result of `Server.HandleTokenRequest`: the HTTP
response and the TokenRecord submitted to the ledger, if any. -/
structure HandleTokenResult where
  response : TokenResponse
  submitted : Option bcconnector.TokenInfo
deriving DecidableEq, Repr

/-- Embedding of `Server.HandleTokenRequest`: validate, issue through
`GetAccessToken`, then run the post-issuance ledger block and answer. -/
def handleTokenRequest (s : Server) (L : Ledger) (r : HttpRequest) :
    HandleTokenResult :=
  match validationTokenRequest s r with
  | .error e => { response := .failure e, submitted := none }
  | .ok (gt, tgr) =>
    match getAccessToken s gt tgr with
    | .error e => { response := .failure e, submitted := none }
    | .ok ti =>
      let pr := postIssueToken s L tgr ti
      { response := pr.1, submitted := some pr.2 }

/-- Embedding of `Server.BearerAuth`: take the rest of an
`Authorization` header that begins with `Bearer `, otherwise fall back
to the `access_token` form value; report presence. -/
def bearerAuth (r : HttpRequest) : String × Bool :=
  let auth := r.authorization
  let token :=
    if auth ≠ "" ∧ goStartsWith auth "Bearer " = true then goDrop auth 7
    else r.formValue "access_token"
  (token, token != "")

/-- Embedding of `Server.LoadAccessTokeninBAS`: recompute the token
hash, derive the `TI_` identifier, synchronously read the TokenRecord,
and accept exactly when the stored hash equals the recomputed hash. -/
def loadAccessTokeninBAS (L : Ledger) (accessToken : String) : Except Err Unit :=
  let mTHashV := genHashS256 accessToken
  let mTID := "TI_" ++ mTHashV
  let mTokenInfo := readTokenInfo L mTID
  if mTokenInfo.Hash_token ≠ mTHashV then .error .invalidAccessToken
  else .ok ()

/-- Embedding of `Server.ValidationBearerToken`: extract the bearer
token, reject its absence, then validate it against the ledger. -/
def validationBearerToken (s : Server) (L : Ledger) (r : HttpRequest) :
    Except Err Unit :=
  let p := bearerAuth r
  if p.2 = false then .error .invalidAccessToken
  else loadAccessTokeninBAS L p.1

/-! ## Concrete artifacts used by witnesses and counterexamples -/

/-- A ledger holding no record at all. -/
def ledEmpty : Ledger := { codes := fun _ => none, tokens := fun _ => none }

/-- A TokenRecord whose stored hash matches the token `tok2`. -/
def recC2 : bcconnector.TokenInfo := { Hash_token := genHashS256 "tok2" }

/-- A ledger holding exactly the TokenRecord of `tok2`. -/
def ledC2 : Ledger :=
  { codes := fun _ => none,
    tokens := fun id => if id = "TI_" ++ genHashS256 "tok2" then some recC2 else none }

/-- A validation request presenting `tok2` in the Authorization header. -/
def reqC2 : HttpRequest := { authorization := "Bearer tok2" }

/-- A request whose Authorization header is non-empty but not of the
Bearer form, with a form access token. -/
def reqC10 : HttpRequest :=
  { authorization := "Basic xyz",
    form := fun k => if k = "access_token" then "tok10" else "" }

/-- An authorize request whose response type is present but not in the
allow-list. -/
def reqC3 : HttpRequest :=
  { method := "GET",
    form := fun k =>
      if k = "client_id" then "222222"
      else if k = "response_type" then "bogus" else "" }

/-- An authorize request with a 42-character code challenge. -/
def reqC4short : HttpRequest :=
  { method := "GET",
    form := fun k =>
      if k = "client_id" then "222222"
      else if k = "response_type" then "code"
      else if k = "code_challenge" then
        "aaaaaaaaaaaaaaaaaaaaaaaaaaaaaaaaaaaaaaaaaa" else "" }

/-- An authorize request with a 43-character code challenge. -/
def reqC4pass : HttpRequest :=
  { method := "GET",
    form := fun k =>
      if k = "client_id" then "222222"
      else if k = "response_type" then "code"
      else if k = "code_challenge" then
        "aaaaaaaaaaaaaaaaaaaaaaaaaaaaaaaaaaaaaaaaaaa" else "" }

/-- An authorize request without a code challenge. -/
def reqC4none : HttpRequest :=
  { method := "GET",
    form := fun k =>
      if k = "client_id" then "222222"
      else if k = "response_type" then "code" else "" }

/-- A server configuration that mandates PKCE. -/
def srvPKCE : Server := { config := { forcePKCE := true } }

/-- A token request server oracle for the client-credentials witness. -/
def srvC9 : Server := { clientInfoHandler := fun _ => .ok ("222222", "22222222") }

/-- A client-credentials token request. -/
def reqC9 : HttpRequest :=
  { method := "POST",
    form := fun k =>
      if k = "grant_type" then "client_credentials"
      else if k = "scope" then "read" else "" }

/-- The access token the manager oracle issues in the C1 run. -/
def tiC1 : OAuthTokenInfo :=
  { access := "tok1", accessCreateAt := "T1", accessExpiresInSec := 7200 }

/-- A server whose manager issues `tiC1` for any request. -/
def srvC1 : Server :=
  { clientInfoHandler := fun _ => .ok ("cid", "sec"),
    manager := { generateAccessToken := fun _ _ => .ok tiC1 } }

/-- An authorization_code token request presenting code `c1`. -/
def reqC1 : HttpRequest :=
  { method := "POST",
    form := fun k =>
      if k = "grant_type" then "authorization_code"
      else if k = "redirect_uri" then "http://localhost:9094/auth"
      else if k = "code" then "c1" else "" }

/-- The TokenGenerateRequest that validating `reqC1` produces. -/
def tgrC1 : TokenGenerateRequest :=
  { clientID := "cid", clientSecret := "sec",
    redirectURI := "http://localhost:9094/auth", code := "c1" }

/-- The access token the manager oracle issues in the C7 run. -/
def tiC7 : OAuthTokenInfo :=
  { access := "tok7", accessCreateAt := "T7", accessExpiresInSec := 7200 }

/-- A server whose manager issues `tiC7` for any request. -/
def srvC7 : Server :=
  { clientInfoHandler := fun _ => .ok ("222222", "22222222"),
    manager := { generateAccessToken := fun _ _ => .ok tiC7 } }

/-- An authorization_code token request presenting code `c7`. -/
def reqC7 : HttpRequest :=
  { method := "POST",
    form := fun k =>
      if k = "grant_type" then "authorization_code"
      else if k = "redirect_uri" then "http://localhost:9094/auth"
      else if k = "code" then "c7" else "" }

/-- The TokenGenerateRequest that validating `reqC7` produces. -/
def tgrC7 : TokenGenerateRequest :=
  { clientID := "222222", clientSecret := "22222222",
    redirectURI := "http://localhost:9094/auth", code := "c7" }

/-- The ledger CodeRecord of code `c7`. -/
def recC7 : bcconnector.CodeInfo :=
  { InfoType := "CodeInfo", ID_code := "CI_" ++ genHashS256 "c7",
    DID_RO := "UserDID", DID_client := "222222", Scope := "all",
    Hash_code := genHashS256 "c7", Condition := "Available" }

/-- A ledger holding exactly the CodeRecord of `c7`. -/
def ledC7 : Ledger :=
  { codes := fun id => if id = "CI_" ++ genHashS256 "c7" then some recC7 else none,
    tokens := fun _ => none }

/-! ## Helper lemmas -/

theorem b64Chars_ne_nil (l : List Nat) (h : l ≠ []) : b64Chars l ≠ [] := by
  match l with
  | [] => exact absurd rfl h
  | [a] => simp [b64Chars]
  | [a, b] => simp [b64Chars]
  | a :: b :: c :: rest => simp [b64Chars]

theorem sha256Bytes_ne_nil (m : List Nat) : sha256Bytes m ≠ [] := by
  unfold sha256Bytes
  rcases sha256Fold hInit (bytesToWords (padMsg m)) with ⟨a, b, c, d, e, f, g, hh⟩
  simp [w2b]

theorem genHashS256_ne_empty (s : String) : genHashS256 s ≠ "" := by
  unfold genHashS256 base64Std
  intro hcontra
  have hdata := congrArg String.data hcontra
  simp only [String.data] at hdata
  exact b64Chars_ne_nil _ (sha256Bytes_ne_nil _) hdata

/-! ## Claim theorems -/

/-- Claim C8: every TokenRecord built at token issuance takes both its
issuance and its expiration timestamp from the same access-token
creation instant, so the two fields are always equal. -/
theorem claim_C8 (s : Server) (L : Ledger) (tgr : TokenGenerateRequest)
    (ti : OAuthTokenInfo) :
    ((postIssueToken s L tgr ti).2).Time_issueed =
      ((postIssueToken s L tgr ti).2).Time_expiration := rfl

/-- Claim C6: the ledger identifier of a CodeRecord equals `CI_` plus
the base64 of the SHA-256 of the raw code's bytes, and equal codes give
equal identifiers (the identifier is a pure function of the secret). -/
theorem claim_C6 (req : AuthorizeRequest) (now c c₁ c₂ : String) (h : c₁ = c₂) :
    (mkCodeInfo req c now).ID_code = "CI_" ++ base64Std (sha256Bytes (strBytes c))
    ∧ (mkCodeInfo req c₁ now).ID_code = (mkCodeInfo req c₂ now).ID_code := by
  subst h
  exact ⟨rfl, rfl⟩

/-- Witness for C6, at the code string `abc` whose identifier is the
concrete value below. -/
theorem claim_C6_witness :
    ((mkCodeInfo { clientID := "222222" } "abc" "t0").ID_code
        = "CI_" ++ base64Std (sha256Bytes (strBytes "abc"))
      ∧ (mkCodeInfo { clientID := "222222" } "abc" "t0").ID_code
        = (mkCodeInfo { clientID := "222222" } "abc" "t0").ID_code)
    ∧ (mkCodeInfo { clientID := "222222" } "abc" "t0").ID_code
        = "CI_ungWv48Bz+pBQUDeXa4iI7ADYaOWF3qctBD/YfIAFa0=" :=
  ⟨claim_C6 { clientID := "222222" } "t0" "abc" "abc" "abc" rfl, by decide⟩

/-- Claim C2: bearer-token validation returns `invalid_access_token`
when no token is presented in either the Bearer header or the
`access_token` form value; otherwise it hashes the extracted token,
derives `TI_` plus the base64 SHA-256, reads the TokenRecord
synchronously, and succeeds exactly when the returned record's stored
hash equals the freshly computed hash — a lookup miss also yields
`invalid_access_token`. -/
theorem claim_C2 (s : Server) (L : Ledger) (r : HttpRequest) :
    (¬ (r.authorization ≠ "" ∧ goStartsWith r.authorization "Bearer " = true) →
       r.formValue "access_token" = "" →
       validationBearerToken s L r = .error .invalidAccessToken)
    ∧ (∀ t, bearerAuth r = (t, true) →
        (validationBearerToken s L r = .ok () ↔
          (readTokenInfo L ("TI_" ++ genHashS256 t)).Hash_token = genHashS256 t))
    ∧ (∀ t, bearerAuth r = (t, true) →
        L.tokens ("TI_" ++ genHashS256 t) = none →
        validationBearerToken s L r = .error .invalidAccessToken) := by
  refine ⟨?_, ?_, ?_⟩
  · intro h1 h2
    simp [validationBearerToken, bearerAuth, h1, HttpRequest.formValue] at *
    simp [h2]
  · intro t hb
    have hres : validationBearerToken s L r = loadAccessTokeninBAS L t := by
      simp [validationBearerToken, hb]
    rw [hres]
    unfold loadAccessTokeninBAS
    by_cases hh : (readTokenInfo L ("TI_" ++ genHashS256 t)).Hash_token = genHashS256 t
    · simp [hh]
    · simp [hh]
  · intro t hb hnone
    have hres : validationBearerToken s L r = loadAccessTokeninBAS L t := by
      simp [validationBearerToken, hb]
    have hread : readTokenInfo L ("TI_" ++ genHashS256 t) = {} := by
      simp [readTokenInfo, hnone]
    have hne : genHashS256 t ≠ "" := genHashS256_ne_empty t
    rw [hres]
    simp only [loadAccessTokeninBAS, hread]
    simp [Ne.symm hne]

/-- Witness for C2: a token presented in the header, whose TokenRecord
is in the ledger with the matching stored hash, validates. -/
theorem claim_C2_witness : validationBearerToken {} ledC2 reqC2 = .ok () :=
  ((claim_C2 {} ledC2 reqC2).2.1 "tok2" (by decide)).mpr (by decide)

/-- Claim C10: a non-empty Authorization header that does not begin
with `Bearer ` is not rejected outright: extraction silently falls back
to the `access_token` form value, and the extraction stage returns
`invalid_access_token` exactly when that form value is also empty
(otherwise validation proceeds with the form token). -/
theorem claim_C10 (s : Server) (L : Ledger) (r : HttpRequest)
    (h1 : r.authorization ≠ "") (h2 : goStartsWith r.authorization "Bearer " = false) :
    bearerAuth r = (r.formValue "access_token", r.formValue "access_token" != "")
    ∧ validationBearerToken s L r =
        (if r.formValue "access_token" = "" then .error .invalidAccessToken
         else loadAccessTokeninBAS L (r.formValue "access_token")) := by
  have hba : bearerAuth r =
      (r.formValue "access_token", r.formValue "access_token" != "") := by
    simp [bearerAuth, h1, h2]
  refine ⟨hba, ?_⟩
  by_cases hf : r.formValue "access_token" = ""
  · simp [validationBearerToken, hba, hf]
  · simp [validationBearerToken, hba, hf]

/-- Witness for C10: a `Basic` Authorization header with a form
access token falls back to the form token. -/
theorem claim_C10_witness :
    bearerAuth reqC10 = (reqC10.formValue "access_token",
      reqC10.formValue "access_token" != "")
    ∧ validationBearerToken {} ledEmpty reqC10 =
        (if reqC10.formValue "access_token" = "" then .error .invalidAccessToken
         else loadAccessTokeninBAS ledEmpty (reqC10.formValue "access_token")) :=
  claim_C10 {} ledEmpty reqC10 (by decide) (by decide)

/-- Claim C3, amended: once the method and client_id gates pass, an
absent (empty) response_type yields `unsupported_response_type`, while a
response_type that is present but not in the configured allow-list is
rejected with `unauthorized_client` (spec status 401), not with
`unsupported_response_type`. -/
theorem claim_C3_amended (s : Server) (r : HttpRequest)
    (hm : r.method = "GET" ∨ r.method = "POST")
    (hc : r.formValue "client_id" ≠ "") :
    (r.formValue "response_type" = "" →
       validationAuthorizeRequest s r = .error .unsupportedResponseType)
    ∧ (r.formValue "response_type" ≠ "" →
       checkResponseType s (r.formValue "response_type") = false →
       validationAuthorizeRequest s r = .error .unauthorizedClient) := by
  have hgate : ¬ (¬ (r.method = "GET" ∨ r.method = "POST") ∨
      r.formValue "client_id" = "") := by
    rintro (h | h)
    · exact h hm
    · exact hc h
  have hgm : (¬ r.method = "GET" → r.method = "POST") ∧
      ¬ r.formValue "client_id" = "" := ⟨fun h => hm.resolve_left h, hc⟩
  constructor
  · intro h0
    simp [validationAuthorizeRequest, hgate, h0]
    exact hgm
  · intro h0 h1
    simp [validationAuthorizeRequest, hgate, h0, h1]
    exact hgm

/-- Counterexample to C3 as stated: a present response_type outside the
allow-list draws `unauthorized_client` (401), not the claimed
`unsupported_response_type` (400). -/
theorem claim_C3_counterexample :
    validationAuthorizeRequest {} reqC3 = .error .unauthorizedClient
    ∧ Err.unauthorizedClient ≠ Err.unsupportedResponseType
    ∧ statusOf Err.unauthorizedClient = 401
    ∧ statusOf Err.unsupportedResponseType = 400 :=
  ⟨by decide, by decide, rfl, rfl⟩

/-- Witness for the amended C3, at a request whose response_type is
`bogus`. -/
theorem claim_C3_amended_witness :
    validationAuthorizeRequest {} reqC3 = .error .unauthorizedClient :=
  (claim_C3_amended {} reqC3 (Or.inl rfl) (by decide)).2 (by decide) (by decide)

/-- Claim C4: past the method, client and response-type gates, a
non-empty code challenge is rejected with `invalid_code_challenge_len`
exactly when its length is below 43 or above 128; and when the
configuration mandates PKCE, a missing challenge is rejected with
`code_challenge_required`. -/
theorem claim_C4 (s : Server) (r : HttpRequest)
    (hm : r.method = "GET" ∨ r.method = "POST")
    (hc : r.formValue "client_id" ≠ "")
    (hrt : r.formValue "response_type" ≠ "")
    (hallow : checkResponseType s (r.formValue "response_type") = true) :
    (r.formValue "code_challenge" ≠ "" →
      (validationAuthorizeRequest s r = .error .invalidCodeChallengeLen ↔
        (goLen (r.formValue "code_challenge") < 43 ∨
          128 < goLen (r.formValue "code_challenge"))))
    ∧ (s.config.forcePKCE = true → r.formValue "code_challenge" = "" →
        validationAuthorizeRequest s r = .error .codeChallengeRquired) := by
  have hgate : ¬ (¬ (r.method = "GET" ∨ r.method = "POST") ∨
      r.formValue "client_id" = "") := by
    rintro (h | h)
    · exact h hm
    · exact hc h
  have hgm : (¬ r.method = "GET" → r.method = "POST") ∧
      ¬ r.formValue "client_id" = "" := ⟨fun h => hm.resolve_left h, hc⟩
  constructor
  · intro hcc
    by_cases hlen : goLen (r.formValue "code_challenge") < 43 ∨
        128 < goLen (r.formValue "code_challenge")
    · simp [validationAuthorizeRequest, hgate, hrt, hallow, hcc, hlen]
      exact hgm
    · simp [validationAuthorizeRequest, hgate, hrt, hallow, hcc, hlen, hgm]
      split_ifs <;> simp_all
  · intro hforce hcc
    simp [validationAuthorizeRequest, hgate, hrt, hallow, hcc, hforce]
    exact hgm

/-- Witness for C4: length 42 is rejected with
`invalid_code_challenge_len`, length 43 is not, and a mandated-PKCE
configuration rejects a missing challenge with
`code_challenge_required`. -/
theorem claim_C4_witness :
    validationAuthorizeRequest {} reqC4short = .error .invalidCodeChallengeLen
    ∧ validationAuthorizeRequest {} reqC4pass ≠ .error .invalidCodeChallengeLen
    ∧ validationAuthorizeRequest srvPKCE reqC4none = .error .codeChallengeRquired := by
  refine ⟨?_, ?_, ?_⟩
  · exact ((claim_C4 {} reqC4short (Or.inl rfl) (by decide) (by decide)
      (by decide)).1 (by decide)).mpr (by decide)
  · intro h
    exact (by decide : ¬ (goLen (reqC4pass.formValue "code_challenge") < 43 ∨
        128 < goLen (reqC4pass.formValue "code_challenge")))
      (((claim_C4 {} reqC4pass (Or.inl rfl) (by decide) (by decide)
        (by decide)).1 (by decide)).mp h)
  · exact (claim_C4 srvPKCE reqC4none (Or.inl rfl) (by decide) (by decide)
      (by decide)).2 rfl rfl

theorem get_del_ne (vs : Values) (k k' : String) (h : k' ≠ k) :
    (Values.del vs k).get k' = vs.get k' := by
  induction vs with
  | nil => rfl
  | cons hd tl ih =>
    by_cases hk : hd.1 = k
    · have hne : ¬ (hd.1 = k') := by
        rw [hk]
        exact fun he => h he.symm
      have hkk : ¬ (k = k') := fun he => h he.symm
      simp [Values.del, Values.get, hk, hne, ih, hkk]
    · by_cases hk' : hd.1 = k'
      · simp [Values.del, Values.get, hk, hk', h]
      · simp [Values.del, Values.get, hk, hk', ih]

theorem Values.get_set_eq (vs : Values) (k v k' : String) :
    (Values.set vs k v).get k' = if k' = k then some v else vs.get k' := by
  by_cases h : k' = k
  · subst h
    simp [Values.set, Values.get]
  · have hne : ¬ (k = k') := fun he => h he.symm
    simp [Values.set, Values.get, hne, h, get_del_ne vs k k' h]

theorem get_foldl_set_of_ne (data : Values) (q : Values) (k : String)
    (h : ∀ p ∈ data, p.1 ≠ k) :
    (data.foldl (fun acc p => Values.set acc p.1 p.2) q).get k = q.get k := by
  induction data generalizing q with
  | nil => rfl
  | cons hd tl ih =>
    simp only [List.foldl_cons]
    rw [ih _ (fun p hp => h p (List.mem_cons_of_mem _ hp))]
    rw [Values.get_set_eq]
    have hne : ¬ (k = hd.1) := fun he => h hd (List.mem_cons_self _ _) he.symm
    simp [hne]

theorem get_foldl_set_mem (data : Values) (q : Values) (k v : String)
    (hnd : (data.map Prod.fst).Nodup) (hm : (k, v) ∈ data) :
    (data.foldl (fun acc p => Values.set acc p.1 p.2) q).get k = some v := by
  induction data generalizing q with
  | nil => cases hm
  | cons hd tl ih =>
    simp only [List.foldl_cons]
    rw [List.map_cons] at hnd
    have hnd1 : hd.1 ∉ tl.map Prod.fst := (List.nodup_cons.mp hnd).1
    have hnd2 : (tl.map Prod.fst).Nodup := (List.nodup_cons.mp hnd).2
    rcases List.mem_cons.mp hm with heq | htl
    · have hhd : hd = (k, v) := heq.symm
      subst hhd
      have hnotin : ∀ p ∈ tl, p.1 ≠ k := by
        intro p hp he
        have hmem : p.1 ∈ tl.map Prod.fst := List.mem_map_of_mem Prod.fst hp
        rw [he] at hmem
        exact hnd1 hmem
      rw [get_foldl_set_of_ne tl _ k hnotin, Values.get_set_eq]
      simp
    · exact ih _ hnd2 htl

theorem get_eq_none_imp (vs : Values) (k : String) (h : vs.get k = none) :
    ∀ p ∈ vs, p.1 ≠ k := by
  induction vs with
  | nil =>
    intro p hp
    cases hp
  | cons hd tl ih =>
    intro p hp
    by_cases hk : hd.1 = k
    · simp [Values.get, hk] at h
    · rcases List.mem_cons.mp hp with heq | hpt
      · rw [heq]
        exact hk
      · exact ih (by simpa [Values.get, hk] using h) p hpt

/-- Claim C5, amended: for a parseable redirect URI and a response-data
map that does not itself contain a `state` entry, `response_type=code`
places all response parameters (and the request's non-empty state) in
the query, leaving the fragment; `response_type=token` places them in
the fragment and clears the query.  (A data entry keyed `state`
overwrites the echoed request state, so the unrestricted claim fails.) -/
theorem claim_C5_amended (req : AuthorizeRequest) (u : GoURL) (data : Values)
    (hnd : (data.map Prod.fst).Nodup)
    (hst : Values.get data "state" = none) :
    (req.responseType = oauthCode →
       (∀ k v, (k, v) ∈ data → (getRedirectURI req u data).query.get k = some v)
       ∧ (req.state ≠ "" →
            (getRedirectURI req u data).query.get "state" = some req.state)
       ∧ (getRedirectURI req u data).fragment = u.fragment)
    ∧ (req.responseType = oauthToken →
       (∀ k v, (k, v) ∈ data → (getRedirectURI req u data).fragment.get k = some v)
       ∧ (req.state ≠ "" →
            (getRedirectURI req u data).fragment.get "state" = some req.state)
       ∧ (getRedirectURI req u data).query = []) := by
  constructor
  · intro hrt
    have hq0 : (getRedirectURI req u data).query =
        data.foldl (fun acc p => Values.set acc p.1 p.2)
          (if req.state ≠ "" then Values.set u.query "state" req.state
            else u.query) := by
      simp [getRedirectURI, hrt]
    have hf0 : (getRedirectURI req u data).fragment = u.fragment := by
      simp [getRedirectURI, hrt]
    refine ⟨?_, ?_, hf0⟩
    · intro k v hm
      rw [hq0]
      exact get_foldl_set_mem data _ k v hnd hm
    · intro hstate
      rw [hq0]
      have hnotin := get_eq_none_imp data "state" hst
      rw [get_foldl_set_of_ne data _ "state" hnotin]
      simp [hstate, Values.get_set_eq]
  · intro hrt
    have hco : ¬ (oauthToken = oauthCode) := by decide
    have hf0 : (getRedirectURI req u data).fragment =
        data.foldl (fun acc p => Values.set acc p.1 p.2)
          (if req.state ≠ "" then Values.set u.query "state" req.state
            else u.query) := by
      simp [getRedirectURI, hrt, hco]
    have hq0 : (getRedirectURI req u data).query = [] := by
      simp [getRedirectURI, hrt, hco]
    refine ⟨?_, ?_, hq0⟩
    · intro k v hm
      rw [hf0]
      exact get_foldl_set_mem data _ k v hnd hm
    · intro hstate
      rw [hf0]
      have hnotin := get_eq_none_imp data "state" hst
      rw [get_foldl_set_of_ne data _ "state" hnotin]
      simp [hstate, Values.get_set_eq]

/-- Counterexample to C5 as stated: with response data containing a
`state` entry, the request's non-empty state does not appear in the
produced URI — the data entry overwrites it. -/
theorem claim_C5_counterexample :
    ({ responseType := "code", state := "good" } : AuthorizeRequest).state ≠ ""
    ∧ (getRedirectURI { responseType := "code", state := "good" } {}
        [("state", "evil")]).query.get "state" = some "evil"
    ∧ (getRedirectURI { responseType := "code", state := "good" } {}
        [("state", "evil")]).fragment = []
    ∧ ¬ ((getRedirectURI { responseType := "code", state := "good" } {}
        [("state", "evil")]).query.get "state" = some "good") := by
  decide

/-- Witness for the amended C5: a `code` redirect carries the code
parameter and echoes the state. -/
theorem claim_C5_amended_witness :
    (getRedirectURI { responseType := "code", state := "xyz" } {}
      [("code", "C")]).query.get "code" = some "C"
    ∧ (getRedirectURI { responseType := "code", state := "xyz" } {}
      [("code", "C")]).query.get "state" = some "xyz" := by
  have h := (claim_C5_amended { responseType := "code", state := "xyz" } {}
    [("code", "C")] (by decide) (by decide)).1 rfl
  exact ⟨h.1 "code" "C" (by decide), h.2.1 (by decide)⟩

/-- Claim C9: the per-grant-type required parameters of
`ValidationTokenRequest` — authorization_code needs redirect_uri and
code (and a code_verifier when PKCE is mandated), password needs
username and password and maps an empty verified identity to
`invalid_grant`, client_credentials needs nothing further, and
refresh_token needs a refresh token; a missing required parameter is an
`invalid_request`. -/
theorem claim_C9 (s : Server) (r : HttpRequest) (cid sec : String)
    (hm : r.method = "POST" ∨
      (s.config.allowGetAccessRequest = true ∧ r.method = "GET"))
    (hci : s.clientInfoHandler r = .ok (cid, sec)) :
    (r.formValue "grant_type" = grantAuthorizationCode →
       ((r.formValue "redirect_uri" = "" ∨ r.formValue "code" = "") →
          validationTokenRequest s r = .error .invalidRequest)
       ∧ (r.formValue "redirect_uri" ≠ "" → r.formValue "code" ≠ "" →
          s.config.forcePKCE = true → r.formValue "code_verifier" = "" →
          validationTokenRequest s r = .error .invalidRequest))
    ∧ (r.formValue "grant_type" = grantPasswordCredentials →
       ((r.formValue "username" = "" ∨ r.formValue "password" = "") →
          validationTokenRequest s r = .error .invalidRequest)
       ∧ (r.formValue "username" ≠ "" → r.formValue "password" ≠ "" →
          s.passwordAuthorizationHandler (r.formValue "username")
            (r.formValue "password") = .ok "" →
          validationTokenRequest s r = .error .invalidGrant))
    ∧ (r.formValue "grant_type" = grantClientCredentials →
       validationTokenRequest s r =
         .ok (grantClientCredentials,
           { clientID := cid, clientSecret := sec,
             scope := r.formValue "scope" }))
    ∧ (r.formValue "grant_type" = grantRefreshing →
       r.formValue "refresh_token" = "" →
       validationTokenRequest s r = .error .invalidRequest) := by
  refine ⟨?_, ?_, ?_, ?_⟩
  · intro hgt
    constructor
    · intro hmiss
      simp [validationTokenRequest, hm, hci, hgt, hmiss,
        grantAuthorizationCode]
    · intro hru hcd hforce hcv
      simp [validationTokenRequest, hm, hci, hgt, hru, hcd, hforce, hcv,
        grantAuthorizationCode]
  · intro hgt
    constructor
    · intro hmiss
      simp [validationTokenRequest, hm, hci, hgt, hmiss,
        grantAuthorizationCode, grantPasswordCredentials]
    · intro hu hp hpw
      simp [validationTokenRequest, hm, hci, hgt, hu, hp, hpw,
        grantAuthorizationCode, grantPasswordCredentials]
  · intro hgt
    simp [validationTokenRequest, hm, hci, hgt,
      grantAuthorizationCode, grantPasswordCredentials,
      grantClientCredentials]
  · intro hgt hrf
    simp [validationTokenRequest, hm, hci, hgt, hrf,
      grantAuthorizationCode, grantPasswordCredentials,
      grantClientCredentials, grantRefreshing]

/-- Witness for C9: a client_credentials request with client auth and a
scope validates to that grant and scope. -/
theorem claim_C9_witness :
    validationTokenRequest srvC9 reqC9 =
      .ok (grantClientCredentials,
        { clientID := "222222", clientSecret := "22222222", scope := "read" }) :=
  (claim_C9 srvC9 reqC9 "222222" "22222222" (Or.inl rfl)
    (by decide)).2.2.1 (by decide)

/-- Claim C7: when an authorization_code exchange issues a token and
the synchronous ledger read returns the CodeRecord, the submitted
TokenRecord carries exactly that record's owner DID, client DID and
scope, the hash and `TI_` identifier of the new access token, and
status `Available`. -/
theorem claim_C7 (s : Server) (L : Ledger) (r : HttpRequest)
    (gt : String) (tgr : TokenGenerateRequest) (ti : OAuthTokenInfo)
    (rec : bcconnector.CodeInfo)
    (hgt : gt = grantAuthorizationCode)
    (h1 : validationTokenRequest s r = .ok (gt, tgr))
    (h2 : getAccessToken s gt tgr = .ok ti)
    (h3 : L.codes ("CI_" ++ genHashS256 tgr.code) = some rec) :
    (handleTokenRequest s L r).submitted = some
      { InfoType := "TokenInfo", ID_token := "TI_" ++ genHashS256 ti.access,
        DID_RO := rec.DID_RO, DID_client := rec.DID_client,
        Scope := rec.Scope, Hash_token := genHashS256 ti.access,
        Time_issueed := ti.accessCreateAt, Time_expiration := ti.accessCreateAt,
        URI_Redirection := tgr.redirectURI, Condition := "Available" } := by
  simp only [handleTokenRequest, h1, h2]
  simp [postIssueToken, readCodeInfo, h3]

/-- Witness for C7, on a concrete exchange of code `c7`. -/
theorem claim_C7_witness :
    (handleTokenRequest srvC7 ledC7 reqC7).submitted = some
      { InfoType := "TokenInfo", ID_token := "TI_" ++ genHashS256 tiC7.access,
        DID_RO := recC7.DID_RO, DID_client := recC7.DID_client,
        Scope := recC7.Scope, Hash_token := genHashS256 tiC7.access,
        Time_issueed := tiC7.accessCreateAt,
        Time_expiration := tiC7.accessCreateAt,
        URI_Redirection := tgrC7.redirectURI, Condition := "Available" } :=
  claim_C7 srvC7 ledC7 reqC7 grantAuthorizationCode tgrC7 tiC7 recC7 rfl
    (by decide) (by decide) (by decide)

/-- Claim C1, amended: after the token engine has issued a token for an
authorization_code request, the handler recomputes the presented code's
hash, derives the ledger identifier and performs the synchronous read,
but makes no presence or hash check on the returned record: the request
always returns the token response (never a crash, a server_error, or an
invalid_grant from this stage), and the record read is used only to
propagate owner and client DID and scope into the submitted
TokenRecord. -/
theorem claim_C1_amended (s : Server) (L : Ledger) (r : HttpRequest)
    (gt : String) (tgr : TokenGenerateRequest) (ti : OAuthTokenInfo)
    (hgt : gt = grantAuthorizationCode)
    (h1 : validationTokenRequest s r = .ok (gt, tgr))
    (h2 : getAccessToken s gt tgr = .ok ti) :
    (handleTokenRequest s L r).response = .success (getTokenData s ti)
    ∧ (handleTokenRequest s L r).submitted = some (postIssueToken s L tgr ti).2
    ∧ ((postIssueToken s L tgr ti).2).DID_RO =
        (readCodeInfo L ("CI_" ++ genHashS256 tgr.code)).DID_RO
    ∧ ((postIssueToken s L tgr ti).2).Hash_token = genHashS256 ti.access := by
  refine ⟨?_, ?_, rfl, rfl⟩
  · simp [handleTokenRequest, h1, h2, postIssueToken]
  · simp [handleTokenRequest, h1, h2]

/-- Counterexample to C1 as stated: a concrete authorization_code
exchange in which the token engine has issued a token and the
synchronous read finds no record, yet the handler returns the token
response — not `invalid_grant`. -/
theorem claim_C1_counterexample :
    validationTokenRequest srvC1 reqC1 = .ok (grantAuthorizationCode, tgrC1)
    ∧ getAccessToken srvC1 grantAuthorizationCode tgrC1 = .ok tiC1
    ∧ ledEmpty.codes ("CI_" ++ genHashS256 tgrC1.code) = none
    ∧ (handleTokenRequest srvC1 ledEmpty reqC1).response ≠ .failure .invalidGrant
    ∧ (handleTokenRequest srvC1 ledEmpty reqC1).response =
        .success (getTokenData srvC1 tiC1) := by
  refine ⟨by decide, by decide, rfl, by decide, by decide⟩

/-- Witness for the amended C1, on the same concrete run with an empty
ledger. -/
theorem claim_C1_amended_witness :
    (handleTokenRequest srvC1 ledEmpty reqC1).response =
      .success (getTokenData srvC1 tiC1) :=
  (claim_C1_amended srvC1 ledEmpty reqC1 grantAuthorizationCode tgrC1 tiC1
    rfl (by decide) (by decide)).1
